import Mathlib

/-!
Shallow embedding of `src/components/SqlChatbot.jsx`: the SQL-chatbot query
service client (`callGenerateSqlAPI`) and the conversation store logic
(`handleAsk`, `handleNewChat`) of the main component, plus the second,
boxed component found later in the same file.
-/

namespace SqlChatbot

/-- JavaScript values as far as this component manipulates them: the
`undefined` and `null` sentinels, primitives, arrays and plain objects
(the latter also serve as parsed JSON bodies). -/
inductive JsValue where
  | jsUndefined
  | null
  | bool (b : Bool)
  | num (n : Int)
  | str (s : String)
  | arr (elems : List JsValue)
  | obj (fields : List (String × JsValue))
deriving Repr

/-- JS truthiness as used by `modelId || "gpt-5"`, `err?.message || err`
and the `if (error)` render check. (`NaN` is not modelled; no code path
produces it.) -/
def truthy : JsValue → Bool
  | .jsUndefined => false
  | .null => false
  | .bool b => b
  | .num n => n != 0
  | .str s => s != ""
  | .arr _ => true
  | .obj _ => true

/-- JS `a || b`. -/
def jsOr (a b : JsValue) : JsValue := if truthy a then a else b

/-- JS `a ?? b` (nullish coalescing): `b` exactly when `a` is
`undefined` or `null`. -/
def nullish (a b : JsValue) : JsValue :=
  match a with
  | .jsUndefined => b
  | .null => b
  | v => v

/-- JS property read `v.f` for the field names this code reads (`sql`,
`explanation`, which are not built-in properties of any primitive):
a TypeError on `null`/`undefined`, the field (or `undefined`) on an
object, `undefined` on every other value. -/
def jsGetField : JsValue → String → Except String JsValue
  | .jsUndefined, _ => .error "TypeError: Cannot read properties of undefined"
  | .null, _ => .error "TypeError: Cannot read properties of null"
  | .obj fields, f => .ok ((fields.lookup f).getD .jsUndefined)
  | _, _ => .ok .jsUndefined

/-- JS `String.prototype.trim`: strip leading and trailing whitespace.
Defined over the character list by structural recursion so that concrete
runs evaluate inside the kernel. -/
def jsTrim (s : String) : String :=
  String.mk (((s.data.dropWhile Char.isWhitespace).reverse.dropWhile
    Char.isWhitespace).reverse)

/-- Embeds `const ENDPOINTS = { keyword: ..., cluster: ... }` (line 15). -/
def ENDPOINTS : List (String × String) :=
  [("keyword", "https://generate-sql.local/generate_sql"),
   ("cluster", "https://generate-sql.local/generate_sql_premium")]

/-- Embeds `ENDPOINTS[modelId] || ENDPOINTS.keyword` (line 29): a JS property
read coerces the key to a string, and every non-string key the code can
pass (`undefined` coerces to "undefined", and so on) misses the map, so
the lookup falls through to the basic URL; the URLs are non-empty, so
`||` behaves as a default. -/
def endpointFor (modelId : JsValue) : String :=
  match modelId with
  | .str s => (ENDPOINTS.lookup s).getD "https://generate-sql.local/generate_sql"
  | _ => "https://generate-sql.local/generate_sql"

/-- The JSON body of the POST (lines 31-37). -/
structure Payload where
  question : String
  schema_path : String
  keywords_path : String
  dialect : String
  model : JsValue
deriving Repr

/-- The one HTTP request `fetch` is given (lines 39-43). -/
structure HttpRequest where
  url : String
  method : String
  contentType : String
  body : Payload
deriving Repr

/-- The request `callGenerateSqlAPI question modelId` issues. -/
def generateSqlRequest (question : String) (modelId : JsValue) : HttpRequest :=
  { url := endpointFor modelId
    method := "POST"
    contentType := "application/json"
    body := { question := question
              schema_path := "schema_tree.json"
              keywords_path := "keyword_to_tables.json"
              dialect := "mysql"
              model := jsOr modelId (.str "gpt-5") } }

/-- How the environment answers the single `fetch`: either the promise
rejects (network failure), or a response arrives with a status, a body
text (`res.text()`), and the body parsed as JSON (`res.json()`, `none`
when the body is not valid JSON so that `res.json()` rejects). -/
inductive HttpOutcome where
  | networkError (message : String)
  | response (status : Nat) (bodyText : String) (bodyJson : Option JsValue)
deriving Repr

/-- A thrown JS `Error` (or the rejection reason of a promise), reduced
to its `message`. -/
structure JsError where
  message : String
deriving Repr, DecidableEq

/-- The object `callGenerateSqlAPI` resolves with (lines 46-49). -/
structure ApiResult where
  sql : JsValue
  explanation : JsValue
deriving Repr

/-- Embeds `res.ok`: status in the inclusive range 200-299. -/
def httpOk (status : Nat) : Bool := 200 ≤ status && status < 300

/-- Embeds `async function callGenerateSqlAPI(question, modelId)` (lines 28-50),
as a function of the outcome of its single `fetch`. Returns the list of
requests issued (always exactly the one built from the arguments) and
the settlement: `throw new Error(await res.text())` on a non-ok status,
the rejection itself on a network or JSON-parse failure, and otherwise
`{ sql: data.sql ?? "", explanation: data.explanation ?? "" }`. -/
def callGenerateSqlAPI (question : String) (modelId : JsValue)
    (outcome : HttpOutcome) : List HttpRequest × Except JsError ApiResult :=
  ([generateSqlRequest question modelId],
    match outcome with
    | .networkError m => .error ⟨m⟩
    | .response status bodyText bodyJson =>
      if !httpOk status then .error ⟨bodyText⟩
      else
        match bodyJson with
        | none => .error ⟨"SyntaxError: Unexpected end of JSON input"⟩
        | some data =>
          match jsGetField data "sql" with
          | .error m => .error ⟨m⟩
          | .ok s =>
            match jsGetField data "explanation" with
            | .error m => .error ⟨m⟩
            | .ok e => .ok { sql := nullish s (.str ""), explanation := nullish e (.str "") })

/-- A message record of the conversation store. `sql`, `explanation` and
`error` model optional JS object fields: `none` when the property is
absent from the record literal that created the message. The code only
ever stores strings in them, but the field values stay `JsValue` because
`handleAsk` copies whatever the client resolved with. -/
structure Message where
  id : String
  role : String
  text : String
  sql : Option JsValue := none
  explanation : Option JsValue := none
  error : Option JsValue := none
  createdAt : Nat
deriving Repr

/-- The seed greeting message of `useState` (lines 132-141) and
`handleNewChat` (lines 223-232); `createdAt` is the `Date.now()` of the
moment it is built. -/
def seedMessage (now : Nat) : Message :=
  { id := "seed"
    role := "assistant"
    text := "Hi! Ask me a data question. I\x27ll propose a MySQL query and explain it."
    explanation := some (.str "Example: \x27Total production by provider for September 2025\x27 or \x27New patients scheduled on 2025-10-13\x27.")
    createdAt := now }

/-- The component state the store logic touches: `messages`, `input`,
`loading`, `model` (scroll and sidebar state are pure view concerns). -/
structure ChatState where
  messages : List Message
  input : String
  loading : Bool
  model : String
deriving Repr

/-- The initial state: seed conversation, empty input, not loading,
`MODELS[0].id = "keyword"` selected. -/
def initialState (now : Nat) : ChatState :=
  { messages := [seedMessage now], input := "", loading := false, model := "keyword" }

/-- Embeds `String(err?.message || err)` (line 211): `err` is an `Error`, so
`err?.message` is its message string; when that is falsy (empty) the
`Error` itself is stringified, which yields `"Error"` for an `Error`
with an empty message. -/
def errDisplay (e : JsError) : String :=
  if e.message = "" then "Error" else e.message

/-- The synchronous part of `handleAsk` (lines 182-189), up to the
`await`: trim the input; if the trimmed question is empty or `loading`
is set, return leaving the state untouched (`none` = no request
started); otherwise append the user message, clear the input, set
`loading`, and hand the question to the client. `uid` is the
`crypto.randomUUID()` drawn for the user message and `now` its
`Date.now()`. -/
def handleAskStart (s : ChatState) (uid : String) (now : Nat) :
    ChatState × Option String :=
  let question := jsTrim s.input
  if question = "" ∨ s.loading then (s, none)
  else
    ({ s with
        messages := s.messages ++
          [{ id := uid, role := "user", text := question, createdAt := now }]
        input := ""
        loading := true },
      some question)

/-- The continuation of `handleAsk` after the client settles (lines
191-219): append the answer-variant assistant message on success, the
error-variant one (text "Sorry, ...", `explanation` from the error,
`error: "true"`) on failure, and in both cases (`finally`) clear
`loading`. `model` is the model of the state, captured by the closure. -/
def handleAskSettle (s : ChatState) (model : String)
    (result : Except JsError ApiResult) (uid : String) (now : Nat) : ChatState :=
  match result with
  | .ok r =>
    { s with
        messages := s.messages ++
          [{ id := uid
             role := "assistant"
             text := "Here is a suggested SQL query using " ++ model ++ "."
             sql := some r.sql
             explanation := some r.explanation
             createdAt := now }]
        loading := false }
  | .error err =>
    { s with
        messages := s.messages ++
          [{ id := uid
             role := "assistant"
             text := "Sorry, I couldn\x27t generate a query."
             explanation := some (.str (errDisplay err))
             error := some (.str "true")
             createdAt := now }]
        loading := false }

/-- Embeds `async function handleAsk(e)` (lines 182-220) end to end, as a
function of the outcome the network gives the single client call. The
second component of the result is the list of HTTP requests issued by
the run. -/
def handleAsk (s : ChatState) (uidUser uidAssistant : String)
    (tUser tAssistant : Nat) (outcome : HttpOutcome) :
    ChatState × List HttpRequest :=
  match handleAskStart s uidUser tUser with
  | (s1, none) => (s1, [])
  | (s1, some question) =>
    let call := callGenerateSqlAPI question (.str s.model) outcome
    (handleAskSettle s1 s.model call.2 uidAssistant tAssistant, call.1)

/-- Embeds `function handleNewChat()` (lines 222-235): replace the message list
with the single seed message (stamped with the current `Date.now()`) and
clear the input. (`scrollToBottom` is view-only.) -/
def handleNewChat (s : ChatState) (now : Nat) : ChatState :=
  { s with messages := [seedMessage now], input := "" }

/-- The `API_URL` constant of the second, boxed component (line 429). -/
def API_URL : String := "https://generate-sql.local/generate_sql"

/-- The request built by the second, boxed variant of `callGenerateSqlAPI`
(lines 431-444), which takes no model argument: fixed `API_URL` and a
payload whose `model` is always the literal `"gpt-5"`. -/
def boxedGenerateSqlRequest (question : String) : HttpRequest :=
  { url := API_URL
    method := "POST"
    contentType := "application/json"
    body := { question := question
              schema_path := "schema_tree.json"
              keywords_path := "keyword_to_tables.json"
              dialect := "mysql"
              model := .str "gpt-5" } }

/-- The field-defaulting rule the success path of the client implements:
a field that is absent (or carries the JSON `null`) becomes the empty
string; any other present value is kept as it is. -/
def fieldOrEmpty : Option JsValue → JsValue
  | none => .str ""
  | some .jsUndefined => .str ""
  | some .null => .str ""
  | some v => v

theorem nullish_getD_fieldOrEmpty (o : Option JsValue) :
    nullish (o.getD .jsUndefined) (.str "") = fieldOrEmpty o := by
  cases o with
  | none => rfl
  | some v => cases v <;> rfl

/-- C3: on every outcome the client issues exactly the one request built
from its arguments (so no retry and no timeout machinery exists); a
rejected fetch propagates the network error unchanged, and a non-2xx
response makes the call fail with exactly the response body text as the
error message. -/
theorem client_failure_single_error (question : String) (modelId : JsValue)
    (o : HttpOutcome) :
    (callGenerateSqlAPI question modelId o).1 =
      [generateSqlRequest question modelId] ∧
    (∀ m, o = .networkError m →
      (callGenerateSqlAPI question modelId o).2 = .error ⟨m⟩) ∧
    (∀ status body j, o = .response status body j → httpOk status = false →
      (callGenerateSqlAPI question modelId o).2 = .error ⟨body⟩) := by
  refine ⟨rfl, ?_, ?_⟩
  · rintro m rfl; rfl
  · rintro status body j rfl h
    simp [callGenerateSqlAPI, h]

/-- Witness for C3 at concrete inputs: a network failure and an HTTP
500 with body "boom". -/
theorem client_failure_single_error_witness :
    (callGenerateSqlAPI "q" (.str "keyword") (.networkError "net down")).2 =
      .error ⟨"net down"⟩ ∧
    (callGenerateSqlAPI "q" (.str "keyword") (.response 500 "boom" none)).2 =
      .error ⟨"boom"⟩ :=
  ⟨(client_failure_single_error "q" (.str "keyword") _).2.1 "net down" rfl,
   (client_failure_single_error "q" (.str "keyword") _).2.2 500 "boom" none rfl rfl⟩

/-- C8: the model identifier "cluster" routes the request to the premium
endpoint URL; "keyword", an absent identifier, and any unknown
identifier all route to the basic endpoint URL. -/
theorem endpoint_routing (question : String) :
    (generateSqlRequest question (.str "cluster")).url =
      "https://generate-sql.local/generate_sql_premium" ∧
    (generateSqlRequest question (.str "keyword")).url =
      "https://generate-sql.local/generate_sql" ∧
    (generateSqlRequest question .jsUndefined).url =
      "https://generate-sql.local/generate_sql" ∧
    ∀ m : String, m ≠ "keyword" → m ≠ "cluster" →
      (generateSqlRequest question (.str m)).url =
        "https://generate-sql.local/generate_sql" := by
  refine ⟨rfl, rfl, rfl, ?_⟩
  intro m h1 h2
  have b1 : (m == "keyword") = false := beq_eq_false_iff_ne.mpr h1
  have b2 : (m == "cluster") = false := beq_eq_false_iff_ne.mpr h2
  simp [generateSqlRequest, endpointFor, ENDPOINTS, List.lookup, b1, b2]

/-- Witness for C8: the unknown identifier "foo" routes to the basic
endpoint. -/
theorem endpoint_routing_witness :
    (generateSqlRequest "q" (.str "foo")).url =
      "https://generate-sql.local/generate_sql" :=
  (endpoint_routing "q").2.2.2 "foo" (by decide) (by decide)

/-- C10: every request body carries the fixed `schema_path`,
`keywords_path` and `dialect` fields; whenever the model identifier is
absent or falsy the `model` field of the body is the string "gpt-5" even
though the request is routed to the basic endpoint; the second, boxed
component always sends model "gpt-5" to the basic endpoint. -/
theorem payload_constants_and_model_default (question : String) (modelId : JsValue) :
    (generateSqlRequest question modelId).body.schema_path = "schema_tree.json" ∧
    (generateSqlRequest question modelId).body.keywords_path = "keyword_to_tables.json" ∧
    (generateSqlRequest question modelId).body.dialect = "mysql" ∧
    (truthy modelId = false →
      (generateSqlRequest question modelId).body.model = .str "gpt-5" ∧
      (generateSqlRequest question modelId).url =
        "https://generate-sql.local/generate_sql") ∧
    (boxedGenerateSqlRequest question).body.model = .str "gpt-5" ∧
    (boxedGenerateSqlRequest question).url =
      "https://generate-sql.local/generate_sql" := by
  refine ⟨rfl, rfl, rfl, ?_, rfl, rfl⟩
  intro h
  cases modelId with
  | jsUndefined => exact ⟨rfl, rfl⟩
  | null => exact ⟨rfl, rfl⟩
  | str s =>
    have hs : s = "" := by simpa [truthy] using h
    subst hs; exact ⟨rfl, rfl⟩
  | bool b =>
    have hb : b = false := by simpa [truthy] using h
    subst hb; exact ⟨rfl, rfl⟩
  | num n =>
    have hn : n = 0 := by simpa [truthy] using h
    subst hn; exact ⟨rfl, rfl⟩
  | arr l => simp [truthy] at h
  | obj l => simp [truthy] at h

/-- Witness for C10 at the absent (undefined) model identifier. -/
theorem payload_constants_witness :
    (generateSqlRequest "q" .jsUndefined).body.model = .str "gpt-5" ∧
    (generateSqlRequest "q" .jsUndefined).url =
      "https://generate-sql.local/generate_sql" :=
  (payload_constants_and_model_default "q" .jsUndefined).2.2.2.1 rfl

/-- C2 as stated is false: on a successful response whose JSON body is
the object with a numeric field sql = 5, the client returns that number
unchanged, and the number 5 is not the empty string the claim requires
for a non-string field. -/
theorem client_nonString_passthrough_cex :
    (callGenerateSqlAPI "q" (.str "keyword")
        (.response 200 "" (some (.obj [("sql", .num 5)])))).2 =
      .ok { sql := .num 5, explanation := .str "" } ∧
    JsValue.num 5 ≠ JsValue.str "" :=
  ⟨rfl, fun h => JsValue.noConfusion h⟩

/-- C2 amended: on a successful response whose JSON body is an object,
the client returns ok with each of sql and explanation equal to the
looked-up field when present and neither null nor undefined, and the
empty string when the field is absent or null — present fields of other
types pass through unchanged rather than being replaced by "". A
successful response whose body is a non-null, non-object JSON value
yields both fields empty; a null body makes the call fail. -/
theorem client_success_field_defaulting (q : String) (m : JsValue)
    (status : Nat) (body : String) (h : httpOk status = true) :
    (∀ fields : List (String × JsValue),
      (callGenerateSqlAPI q m (.response status body (some (.obj fields)))).2 =
        .ok { sql := fieldOrEmpty (fields.lookup "sql"),
              explanation := fieldOrEmpty (fields.lookup "explanation") }) ∧
    (∀ data : JsValue, (∀ fs, data ≠ .obj fs) → data ≠ .null → data ≠ .jsUndefined →
      (callGenerateSqlAPI q m (.response status body (some data))).2 =
        .ok { sql := .str "", explanation := .str "" }) ∧
    (∃ e, (callGenerateSqlAPI q m (.response status body (some .null))).2 =
      .error e) := by
  refine ⟨?_, ?_, ?_⟩
  · intro fields
    simp [callGenerateSqlAPI, h, jsGetField, nullish_getD_fieldOrEmpty]
  · intro data hobj hnull hu
    cases data with
    | jsUndefined => exact absurd rfl hu
    | null => exact absurd rfl hnull
    | obj fs => exact absurd rfl (hobj fs)
    | bool b => simp [callGenerateSqlAPI, h, jsGetField, nullish]
    | num n => simp [callGenerateSqlAPI, h, jsGetField, nullish]
    | str s => simp [callGenerateSqlAPI, h, jsGetField, nullish]
    | arr l => simp [callGenerateSqlAPI, h, jsGetField, nullish]
  · exact ⟨⟨"TypeError: Cannot read properties of null"⟩,
      by simp [callGenerateSqlAPI, h, jsGetField]⟩

/-- Witness for the amended C2 at a concrete body with a numeric sql
field and no explanation field. -/
theorem client_success_field_defaulting_witness :
    (callGenerateSqlAPI "q" (.str "keyword")
        (.response 200 "" (some (.obj [("sql", .num 5)])))).2 =
      .ok { sql := fieldOrEmpty ([("sql", JsValue.num 5)].lookup "sql"),
            explanation := fieldOrEmpty ([("sql", JsValue.num 5)].lookup "explanation") } :=
  (client_success_field_defaulting "q" (.str "keyword") 200 "" rfl).1
    [("sql", .num 5)]

/-- C4: while `loading` is set, or when the input trims to the empty
string, `handleAsk` leaves the state (messages, input, loading flag)
exactly as it was and issues no request — so a second request can never
be started while one is outstanding. -/
theorem submit_noop_when_loading_or_blank (s : ChatState) (uu ua : String)
    (tu ta : Nat) (o : HttpOutcome)
    (h : s.loading = true ∨ jsTrim s.input = "") :
    handleAsk s uu ua tu ta o = (s, []) := by
  unfold handleAsk handleAskStart
  rcases h with h | h <;> simp [h]

/-- Witness for C4: a whitespace-only input, and separately a loading
state, are both left untouched. -/
theorem submit_noop_witness :
    handleAsk { initialState 0 with input := "   " } "u" "a" 1 2
        (.networkError "x") =
      ({ initialState 0 with input := "   " }, []) ∧
    handleAsk { initialState 0 with input := "q", loading := true } "u" "a" 1 2
        (.networkError "x") =
      ({ initialState 0 with input := "q", loading := true }, []) :=
  ⟨submit_noop_when_loading_or_blank _ "u" "a" 1 2 _ (Or.inr (by decide)),
   submit_noop_when_loading_or_blank _ "u" "a" 1 2 _ (Or.inl rfl)⟩

/-- C5: on a non-blank input while not loading, `handleAsk` appends
exactly one user message carrying the trimmed question and then exactly
one assistant message (answer variant on success — error unset — and
error variant on failure), sets `loading` for the duration of the call
(the state after the synchronous phase has it set), and clears it on
settlement in both outcomes; nothing else is added or removed. -/
theorem submit_appends_user_then_assistant (s : ChatState) (uu ua : String)
    (tu ta : Nat) (o : HttpOutcome)
    (hq : jsTrim s.input ≠ "") (hl : s.loading = false) :
    (handleAskStart s uu tu).1.loading = true ∧
    (handleAsk s uu ua tu ta o).1.loading = false ∧
    ∃ am : Message,
      (handleAsk s uu ua tu ta o).1.messages =
        s.messages ++
          [{ id := uu, role := "user", text := jsTrim s.input, createdAt := tu },
           am] ∧
      am.role = "assistant" ∧
      (∀ r, (callGenerateSqlAPI (jsTrim s.input) (.str s.model) o).2 = .ok r →
        am.error = none) ∧
      (∀ e, (callGenerateSqlAPI (jsTrim s.input) (.str s.model) o).2 = .error e →
        am.error = some (.str "true")) := by
  have hcond : ¬(jsTrim s.input = "" ∨ (s.loading : Prop)) := by
    simp [hq, hl]
  refine ⟨?_, ?_, ?_⟩
  · unfold handleAskStart
    simp [hcond]
  · unfold handleAsk handleAskStart
    simp only [hcond, if_neg]
    cases hr : (callGenerateSqlAPI (jsTrim s.input) (.str s.model) o).2 with
    | ok r => simp [handleAskSettle, hr]
    | error e => simp [handleAskSettle, hr]
  · unfold handleAsk handleAskStart
    simp only [hcond, if_neg]
    cases hr : (callGenerateSqlAPI (jsTrim s.input) (.str s.model) o).2 with
    | ok r =>
      refine ⟨{ id := ua, role := "assistant",
                text := "Here is a suggested SQL query using " ++ s.model ++ ".",
                sql := some r.sql, explanation := some r.explanation,
                createdAt := ta }, by simp [handleAskSettle, hr], rfl, ?_, ?_⟩
      · intro _ _; rfl
      · intro e he; exact Except.noConfusion he
    | error e =>
      refine ⟨{ id := ua, role := "assistant",
                text := "Sorry, I couldn\x27t generate a query.",
                explanation := some (.str (errDisplay e)),
                error := some (.str "true"),
                createdAt := ta }, by simp [handleAskSettle, hr], rfl, ?_, ?_⟩
      · intro r hrr; exact Except.noConfusion hrr
      · intro _ _; rfl

/-- Witness for C5: a concrete successful submission clears loading. -/
theorem submit_appends_witness :
    (handleAsk { initialState 0 with input := "q1" } "u" "a" 1 2
        (.response 200 "" (some (.obj [])))).1.loading = false :=
  (submit_appends_user_then_assistant _ "u" "a" 1 2 _ (by decide) rfl).2.1

/-- C6: when the client resolves with a result, the assistant message
appended by `handleAsk` carries the sql and explanation values of the result
unchanged and leaves its error field unset. -/
theorem submit_success_message_fields (s : ChatState) (uu ua : String)
    (tu ta : Nat) (o : HttpOutcome) (r : ApiResult)
    (hq : jsTrim s.input ≠ "") (hl : s.loading = false)
    (hr : (callGenerateSqlAPI (jsTrim s.input) (.str s.model) o).2 = .ok r) :
    (handleAsk s uu ua tu ta o).1.messages =
      s.messages ++
        [{ id := uu, role := "user", text := jsTrim s.input, createdAt := tu },
         { id := ua, role := "assistant",
           text := "Here is a suggested SQL query using " ++ s.model ++ ".",
           sql := some r.sql, explanation := some r.explanation,
           error := none, createdAt := ta }] := by
  have hcond : ¬(jsTrim s.input = "" ∨ (s.loading : Prop)) := by
    simp [hq, hl]
  unfold handleAsk handleAskStart
  simp only [hcond, if_neg]
  simp [handleAskSettle, hr]

/-- Witness for C6 on the example response
`{sql: "SELECT 1", explanation: "because"}`. -/
theorem submit_success_message_fields_witness :
    (handleAsk { initialState 0 with input := "count users" } "u" "a" 1 2
        (.response 200 ""
          (some (.obj [("sql", .str "SELECT 1"), ("explanation", .str "because")])))).1.messages =
      { initialState 0 with input := "count users" }.messages ++
        [{ id := "u", role := "user", text := jsTrim "count users", createdAt := 1 },
         { id := "a", role := "assistant",
           text := "Here is a suggested SQL query using " ++
             { initialState 0 with input := "count users" }.model ++ ".",
           sql := some (JsValue.str "SELECT 1"),
           explanation := some (JsValue.str "because"),
           error := none, createdAt := 2 }] :=
  submit_success_message_fields _ "u" "a" 1 2 _
    ⟨.str "SELECT 1", .str "because"⟩ (by decide) rfl rfl

/-- C1 as stated is false: on an HTTP 500 with body "boom", the
assistant message appended by `handleAsk` has its explanation equal to
"boom" as claimed, but its error field holds the STRING "true", which is
not the boolean true the claim requires. -/
theorem submit_error_flag_string_cex :
    ((handleAsk { initialState 0 with input := "list users" } "u1" "a1" 1 2
        (.response 500 "boom" none)).1.messages.getLast?.map Message.explanation) =
      some (some (.str "boom")) ∧
    ((handleAsk { initialState 0 with input := "list users" } "u1" "a1" 1 2
        (.response 500 "boom" none)).1.messages.getLast?.map Message.error) =
      some (some (.str "true")) ∧
    JsValue.str "true" ≠ JsValue.bool true :=
  ⟨rfl, rfl, fun h => JsValue.noConfusion h⟩

/-- C1 amended: on a submission whose client call fails with a non-2xx
HTTP response carrying a non-empty body, the appended assistant message
has its error field equal to the string "true" (a truthy value, not the
boolean true) and its explanation equal to the response body text (an
empty body would instead yield "Error", the stringification of an Error
with an empty message). -/
theorem submit_failure_message_fields (s : ChatState) (uu ua : String)
    (tu ta : Nat) (status : Nat) (body : String) (j : Option JsValue)
    (hq : jsTrim s.input ≠ "") (hl : s.loading = false)
    (hst : httpOk status = false) (hb : body ≠ "") :
    (handleAsk s uu ua tu ta (.response status body j)).1.messages =
      s.messages ++
        [{ id := uu, role := "user", text := jsTrim s.input, createdAt := tu },
         { id := ua, role := "assistant",
           text := "Sorry, I couldn\x27t generate a query.",
           explanation := some (.str body),
           error := some (.str "true"), createdAt := ta }] := by
  have hcond : ¬(jsTrim s.input = "" ∨ (s.loading : Prop)) := by
    simp [hq, hl]
  unfold handleAsk handleAskStart
  simp only [hcond, if_neg]
  simp [callGenerateSqlAPI, hst, handleAskSettle, errDisplay, hb]

/-- Witness for the amended C1: HTTP 500 with body "boom". -/
theorem submit_failure_message_fields_witness :
    (handleAsk { initialState 0 with input := "list users" } "u1" "a1" 1 2
        (.response 500 "boom" none)).1.messages =
      { initialState 0 with input := "list users" }.messages ++
        [{ id := "u1", role := "user", text := jsTrim "list users", createdAt := 1 },
         { id := "a1", role := "assistant",
           text := "Sorry, I couldn\x27t generate a query.",
           explanation := some (.str "boom"),
           error := some (.str "true"), createdAt := 2 }] :=
  submit_failure_message_fields _ "u1" "a1" 1 2 500 "boom" none
    (by decide) rfl rfl (by decide)

/-- C7: `handleNewChat` replaces the conversation, whatever it was, by a
single-element sequence holding the seed greeting message, which agrees
with the message of the initial conversation on id, role, text and
explanation (only `createdAt` is re-stamped). -/
theorem reset_yields_seed_conversation (s : ChatState) (now t0 : Nat) :
    (handleNewChat s now).messages.length = 1 ∧
    (handleNewChat s now).messages = [seedMessage now] ∧
    (initialState t0).messages = [seedMessage t0] ∧
    (seedMessage now).id = (seedMessage t0).id ∧
    (seedMessage now).role = (seedMessage t0).role ∧
    (seedMessage now).text = (seedMessage t0).text ∧
    (seedMessage now).explanation = (seedMessage t0).explanation :=
  ⟨rfl, rfl, rfl, rfl, rfl, rfl, rfl⟩

/-- C9: `handleAsk` only ever appends: on every state, input and
outcome, the previous message sequence is an unchanged prefix of the new
one (prior message records, being pure values, are never mutated). -/
theorem store_append_only (s : ChatState) (uu ua : String) (tu ta : Nat)
    (o : HttpOutcome) :
    ∃ t, (handleAsk s uu ua tu ta o).1.messages = s.messages ++ t := by
  by_cases h : jsTrim s.input = "" ∨ (s.loading : Prop)
  · refine ⟨[], ?_⟩
    unfold handleAsk handleAskStart
    simp [h]
  · cases hr : (callGenerateSqlAPI (jsTrim s.input) (.str s.model) o).2 with
    | ok r =>
      refine ⟨[{ id := uu, role := "user", text := jsTrim s.input, createdAt := tu },
               { id := ua, role := "assistant",
                 text := "Here is a suggested SQL query using " ++ s.model ++ ".",
                 sql := some r.sql, explanation := some r.explanation,
                 createdAt := ta }], ?_⟩
      unfold handleAsk handleAskStart
      simp only [h, if_neg, not_false_iff]
      simp [handleAskSettle, hr]
    | error e =>
      refine ⟨[{ id := uu, role := "user", text := jsTrim s.input, createdAt := tu },
               { id := ua, role := "assistant",
                 text := "Sorry, I couldn\x27t generate a query.",
                 explanation := some (.str (errDisplay e)),
                 error := some (.str "true"),
                 createdAt := ta }], ?_⟩
      unfold handleAsk handleAskStart
      simp only [h, if_neg, not_false_iff]
      simp [handleAskSettle, hr]

end SqlChatbot
